import Mathlib

/-!
Verification of the launcher abstraction in `vashishta_simulator/computer.py`.

The Python module defines a base class `Computer` with a static helper
`run_lammps` building the `mpirun` command line, and four concrete launch
targets: `CPU`, `GPU`, `SlurmCPU`, `SlurmGPU`.  Python `dict`s (insertion
ordered, unique keys) are modelled as association lists `List (String ×
String)`; the statement `d[k] = v` is `dictSet` (update the first entry in
place, else append), and `{**d, **c}` is `dictMerge` (fold `dictSet` of the
entries of `c` over `d`).  `os.system(cmd)` and file writes are modelled by
returning the command string / file contents.
-/

set_option maxRecDepth 100000

namespace VashishtaSim

/-- A Python `dict` with string keys and values: an insertion-ordered
association list. -/
abbrev Dict := List (String × String)

/-- The list of keys of a dict, in order. -/
def keysOf (d : Dict) : List String := d.map Prod.fst

/-- Lookup `d[k]` as an option: value of the first entry with key `k`. -/
def dictLookup : Dict → String → Option String
  | [], _ => none
  | p :: d, k => if p.1 == k then some p.2 else dictLookup d k

/-- Membership test `k in d`. -/
def dictHasKey : Dict → String → Bool
  | [], _ => false
  | p :: d, k => (p.1 == k) || dictHasKey d k

/-- Python `d[k] = v`: overwrite the first entry with key `k` in place,
otherwise append `(k, v)` at the end. -/
def dictSet : Dict → String → String → Dict
  | [], k, v => [(k, v)]
  | p :: d, k, v => if p.1 == k then (k, v) :: d else p :: dictSet d k v

/-- Python `\x7b**d, **c\x7d`: start from `d` and assign each entry of `c` in
order. -/
def dictMerge (d c : Dict) : Dict :=
  c.foldl (fun acc p => dictSet acc p.1 p.2) d

/-- Number of entries of `d` whose key is `k`. -/
def countKey (d : Dict) (k : String) : Nat :=
  d.countP (fun p => p.1 == k)

/-- The text contributed by one command line argument in `run_lammps`:
the f-string `f"{key} {value} "`. -/
def optSeg (p : String × String) : String := p.1 ++ " " ++ p.2 ++ " "

/-- The text contributed by one command line variable in `run_lammps`:
the f-string `f"-var {key} {value} "`. -/
def varSeg (p : String × String) : String := "-var " ++ p.1 ++ " " ++ p.2 ++ " "

/-- Concatenation of the segments of all entries of a dict, in order. -/
def segsOf (f : String × String → String) (l : Dict) : String :=
  l.foldr (fun p acc => f p ++ acc) ""

/-- Model of `Computer.run_lammps(num_procs, lmp_exec, args, var)`: build the shell
command `mpirun -n {num_procs} {lmp_exec} ` followed by one `optSeg` per
entry of `args` and one `varSeg` per entry of `var`, accumulating with
`+=` exactly as the source does. -/
def run_lammps (num_procs : Nat) (lmp_exec : String) (args var : Dict) : String :=
  let call_string := "mpirun -n " ++ toString num_procs ++ " " ++ lmp_exec ++ " "
  let call_string := args.foldl (fun acc p => acc ++ optSeg p) call_string
  var.foldl (fun acc p => acc ++ varSeg p) call_string

theorem segsOf_nil (f : String × String → String) : segsOf f [] = "" := rfl

theorem segsOf_cons (f : String × String → String) (p : String × String) (l : Dict) :
    segsOf f (p :: l) = f p ++ segsOf f l := rfl

theorem foldl_append_eq_segsOf (f : String × String → String) (l : Dict) (s0 : String) :
    l.foldl (fun acc p => acc ++ f p) s0 = s0 ++ segsOf f l := by
  induction l generalizing s0 with
  | nil => simp [segsOf]
  | cons p l ih =>
      simp only [List.foldl_cons, segsOf_cons, ih, String.append_assoc]

/-- The function `run_lammps` decomposes as header, then option segments, then variable
segments. -/
theorem run_lammps_eq (n : Nat) (e : String) (args var : Dict) :
    run_lammps n e args var =
      "mpirun -n " ++ toString n ++ " " ++ e ++ " " ++ segsOf optSeg args
        ++ segsOf varSeg var := by
  simp only [run_lammps, foldl_append_eq_segsOf, String.append_assoc]

/-- Claim C1: for every positive process count `n`, executable `e`, option
map `args` and variable map `var`, `Computer.run_lammps` returns the string
`mpirun -n <n> <e> ` followed by each option key and value and then each
variable rendered as `-var <name> <value>`, every token followed by a single
space; in particular for `4`, `lmp_mpi`, `-in in.melt`, `T 300` the
result is exactly `mpirun -n 4 lmp_mpi -in in.melt -var T 300 `. -/
theorem run_lammps_spec (n : Nat) (h : 0 < n) (e : String) (args var : Dict) :
    run_lammps n e args var =
      "mpirun -n " ++ toString n ++ " " ++ e ++ " " ++ segsOf optSeg args
        ++ segsOf varSeg var ∧
    run_lammps 4 "lmp_mpi" [("-in", "in.melt")] [("T", "300")] =
      "mpirun -n 4 lmp_mpi -in in.melt -var T 300 " :=
  ⟨run_lammps_eq n e args var, rfl⟩

/-- Witness for C1 at `n = 4`. -/
theorem run_lammps_spec_witness :
    run_lammps 4 "lmp_mpi" [("-in", "in.melt")] [("T", "300")] =
      "mpirun -n 4 lmp_mpi -in in.melt -var T 300 " :=
  (run_lammps_spec 4 (by decide) "lmp_mpi" [] []).2

/-- In a dict whose keys are distinct, every entry occurs exactly once. -/
theorem countP_pair_eq_one (l : Dict) (hl : (keysOf l).Nodup)
    (p : String × String) (hp : p ∈ l) :
    l.countP (fun q => decide (q = p)) = 1 := by
  induction l with
  | nil => cases hp
  | cons a l ih =>
      rw [List.countP_cons]
      simp only [keysOf, List.map_cons, List.nodup_cons, List.mem_map] at hl
      rcases hl with ⟨ha, hl⟩
      rcases List.mem_cons.mp hp with rfl | hp'
      · have h0 : l.countP (fun q => decide (q = p)) = 0 := by
          rw [List.countP_eq_zero]
          intro q hq
          simp only [decide_eq_true_eq]
          intro hqp
          exact ha ⟨q, hq, by rw [hqp]⟩
        simp [h0]
      · have hap : ¬(a = p) := by
          intro hap
          exact ha ⟨p, hp', by rw [hap]⟩
        rw [ih hl hp']
        simp [hap]

/-- Claim C2: the command built by `run_lammps` is the header followed by one
segment per option entry in map order, then one segment per variable entry in
map order (so variables come after options), and under the dict invariant of
unique keys each entry occurs exactly once in its map, hence contributes
exactly one segment. -/
theorem run_lammps_pairs (n : Nat) (e : String) (args var : Dict)
    (ha : (keysOf args).Nodup) (hv : (keysOf var).Nodup) :
    run_lammps n e args var =
      "mpirun -n " ++ toString n ++ " " ++ e ++ " " ++ segsOf optSeg args
        ++ segsOf varSeg var ∧
    (∀ p ∈ args, args.countP (fun q => decide (q = p)) = 1) ∧
    (∀ p ∈ var, var.countP (fun q => decide (q = p)) = 1) :=
  ⟨run_lammps_eq n e args var,
   fun p hp => countP_pair_eq_one args ha p hp,
   fun p hp => countP_pair_eq_one var hv p hp⟩

/-- Witness for C2 on concrete maps. -/
theorem run_lammps_pairs_witness :
    run_lammps 2 "lmp" [("-in", "a.in")] [("T", "300")] =
      "mpirun -n " ++ toString 2 ++ " " ++ "lmp" ++ " "
        ++ segsOf optSeg [("-in", "a.in")] ++ segsOf varSeg [("T", "300")] ∧
    (∀ p ∈ ([("-in", "a.in")] : Dict),
      ([("-in", "a.in")] : Dict).countP (fun q => decide (q = p)) = 1) ∧
    (∀ p ∈ ([("T", "300")] : Dict),
      ([("T", "300")] : Dict).countP (fun q => decide (q = p)) = 1) :=
  run_lammps_pairs 2 "lmp" [("-in", "a.in")] [("T", "300")]
    (by decide) (by decide)

theorem dictLookup_dictSet_self (d : Dict) (k v : String) :
    dictLookup (dictSet d k v) k = some v := by
  induction d with
  | nil => simp [dictSet, dictLookup]
  | cons p d ih =>
      by_cases h : p.1 = k
      · simp [dictSet, dictLookup, h]
      · simp only [dictSet, dictLookup, h, beq_iff_eq, if_false, if_neg h]
        exact ih

theorem dictLookup_dictSet_ne (d : Dict) (k v j : String) (h : j ≠ k) :
    dictLookup (dictSet d k v) j = dictLookup d j := by
  have hkj : ¬(k = j) := fun hh => h hh.symm
  induction d with
  | nil => simp [dictSet, dictLookup, hkj]
  | cons p d ih =>
      by_cases hp : p.1 = k
      · have hpj : ¬(p.1 = j) := by rw [hp]; exact hkj
        simp [dictSet, dictLookup, hp, hkj, hpj]
      · by_cases hj : p.1 = j
        · simp [dictSet, dictLookup, hp, hj, h]
        · simp only [dictSet, dictLookup, hp, hj, beq_iff_eq, if_neg, if_neg hp,
            if_neg hj]
          exact ih

theorem countKey_cons (p : String × String) (d : Dict) (k : String) :
    countKey (p :: d) k = countKey d k + if p.1 = k then 1 else 0 := by
  simp [countKey, List.countP_cons]

theorem countKey_dictSet (d : Dict) (k v : String) (h : countKey d k ≤ 1) :
    countKey (dictSet d k v) k = 1 := by
  induction d with
  | nil => simp [dictSet, countKey]
  | cons p d ih =>
      rw [countKey_cons] at h
      by_cases hp : p.1 = k
      · have hd : countKey d k = 0 := by
          rw [if_pos hp] at h
          omega
        have hs : dictSet (p :: d) k v = (k, v) :: d := by simp [dictSet, hp]
        rw [hs, countKey_cons, hd, if_pos rfl]
      · rw [if_neg hp] at h
        have hs : dictSet (p :: d) k v = p :: dictSet d k v := by simp [dictSet, hp]
        rw [hs, countKey_cons, ih (by omega), if_neg hp]

theorem countKey_dictSet_le (d : Dict) (k v : String) (h : countKey d k ≤ 1) :
    countKey (dictSet d k v) k ≤ 1 :=
  Nat.le_of_eq (countKey_dictSet d k v h)

/-- The `CPU` target: `CPU.__init__(num_procs=4, lmp_exec="lmp_mpi", args=...)`
stores the three fields unchanged. -/
structure CPU where
  num_procs : Nat
  lmp_exec : String
  args : Dict

def CPU.init (num_procs : Nat) (lmp_exec : String) (args : Dict) : CPU :=
  ⟨num_procs, lmp_exec, args⟩

/-- Model of `CPU.__call__(lmp_script, var)`: set `self.args["-in"] = lmp_script`, then
hand `run_lammps(self.num_procs, self.lmp_exec, self.args, var)` to the shell.
Returns the mutated object and the command string passed to `os.system`. -/
def CPU.call (c : CPU) (lmp_script : String) (var : Dict) : CPU × String :=
  let args := dictSet c.args "-in" lmp_script
  ({ c with args := args }, run_lammps c.num_procs c.lmp_exec args var)

/-- State of a `CPU` target after a sequence of `__call__`s. -/
def CPU.launchSeq (c : CPU) (ss : List String) (var : Dict) : CPU :=
  ss.foldl (fun c s => (c.call s var).1) c

/-- The GPU default command-line arguments built in `GPU.__init__`. -/
def gpuDefaultArgs (gpu_per_node : Nat) : Dict :=
  [("-pk", "kokkos newton on comm no"),
   ("-k", "on g " ++ toString gpu_per_node),
   ("-sf", "kk")]

/-- The `GPU` target. -/
structure GPU where
  gpu_per_node : Nat
  lmp_exec : String
  args : Dict

/-- Model of `GPU.__init__(gpu_per_node=1, lmp_exec="lmp_kokkos_cuda_mpi", args=...)`:
merge the `args` given by the caller over `default_args`. -/
def GPU.init (gpu_per_node : Nat) (lmp_exec : String) (args : Dict) : GPU :=
  ⟨gpu_per_node, lmp_exec, dictMerge (gpuDefaultArgs gpu_per_node) args⟩

/-- Model of `GPU.__call__(lmp_script, var)`: set `self.args["-in"]`, then run
`run_lammps(self.gpu_per_node, self.lmp_exec, self.args, var)`. -/
def GPU.call (g : GPU) (lmp_script : String) (var : Dict) : GPU × String :=
  let args := dictSet g.args "-in" lmp_script
  ({ g with args := args }, run_lammps g.gpu_per_node g.lmp_exec args var)

/-- State of a `GPU` target after a sequence of `__call__`s. -/
def GPU.launchSeq (g : GPU) (ss : List String) (var : Dict) : GPU :=
  ss.foldl (fun g s => (g.call s var).1) g

theorem CPU.launchSeq_num_procs (c : CPU) (ss : List String) (var : Dict) :
    (CPU.launchSeq c ss var).num_procs = c.num_procs := by
  induction ss generalizing c with
  | nil => rfl
  | cons s ss ih => simpa [CPU.launchSeq] using ih ((c.call s var).1)

theorem cpu_launchSeq_lmp_exec (c : CPU) (ss : List String) (var : Dict) :
    (CPU.launchSeq c ss var).lmp_exec = c.lmp_exec := by
  induction ss generalizing c with
  | nil => rfl
  | cons s ss ih => simpa [CPU.launchSeq] using ih ((c.call s var).1)

theorem cpu_launchSeq_countKey (c : CPU) (ss : List String) (var : Dict)
    (h : countKey c.args "-in" ≤ 1) :
    countKey (CPU.launchSeq c ss var).args "-in" ≤ 1 := by
  induction ss generalizing c with
  | nil => exact h
  | cons s ss ih =>
      simpa [CPU.launchSeq] using
        ih ((c.call s var).1) (countKey_dictSet_le c.args "-in" s h)

theorem GPU.launchSeq_gpu_per_node (g : GPU) (ss : List String) (var : Dict) :
    (GPU.launchSeq g ss var).gpu_per_node = g.gpu_per_node := by
  induction ss generalizing g with
  | nil => rfl
  | cons s ss ih => simpa [GPU.launchSeq] using ih ((g.call s var).1)

theorem gpu_launchSeq_lmp_exec (g : GPU) (ss : List String) (var : Dict) :
    (GPU.launchSeq g ss var).lmp_exec = g.lmp_exec := by
  induction ss generalizing g with
  | nil => rfl
  | cons s ss ih => simpa [GPU.launchSeq] using ih ((g.call s var).1)

theorem gpu_launchSeq_countKey (g : GPU) (ss : List String) (var : Dict)
    (h : countKey g.args "-in" ≤ 1) :
    countKey (GPU.launchSeq g ss var).args "-in" ≤ 1 := by
  induction ss generalizing g with
  | nil => exact h
  | cons s ss ih =>
      simpa [GPU.launchSeq] using
        ih ((g.call s var).1) (countKey_dictSet_le g.args "-in" s h)

/-- Claim C3: on one `CPU` or `GPU` target, each `__call__` overwrites the
`-in` entry, so after any sequence of launches `ss` followed by a final launch
with script `s`, the stored option map has exactly one `-in` entry, bound to
`s`, and the command handed to the shell is `run_lammps` of exactly that map
(the dict invariant `countKey args "-in" ≤ 1` holds for any real Python dict). -/
theorem launch_overwrites_in (c : CPU) (g : GPU) (ss : List String) (s : String)
    (var : Dict) (hc : countKey c.args "-in" ≤ 1) (hg : countKey g.args "-in" ≤ 1) :
    countKey ((CPU.launchSeq c ss var).call s var).1.args "-in" = 1 ∧
    dictLookup ((CPU.launchSeq c ss var).call s var).1.args "-in" = some s ∧
    ((CPU.launchSeq c ss var).call s var).2 =
      run_lammps c.num_procs c.lmp_exec
        ((CPU.launchSeq c ss var).call s var).1.args var ∧
    countKey ((GPU.launchSeq g ss var).call s var).1.args "-in" = 1 ∧
    dictLookup ((GPU.launchSeq g ss var).call s var).1.args "-in" = some s ∧
    ((GPU.launchSeq g ss var).call s var).2 =
      run_lammps g.gpu_per_node g.lmp_exec
        ((GPU.launchSeq g ss var).call s var).1.args var := by
  refine ⟨?_, ?_, ?_, ?_, ?_, ?_⟩
  · exact countKey_dictSet _ _ s (cpu_launchSeq_countKey c ss var hc)
  · exact dictLookup_dictSet_self _ "-in" s
  · show run_lammps (CPU.launchSeq c ss var).num_procs
        (CPU.launchSeq c ss var).lmp_exec _ var = _
    rw [CPU.launchSeq_num_procs, cpu_launchSeq_lmp_exec]
    rfl
  · exact countKey_dictSet _ _ s (gpu_launchSeq_countKey g ss var hg)
  · exact dictLookup_dictSet_self _ "-in" s
  · show run_lammps (GPU.launchSeq g ss var).gpu_per_node
        (GPU.launchSeq g ss var).lmp_exec _ var = _
    rw [GPU.launchSeq_gpu_per_node, gpu_launchSeq_lmp_exec]
    rfl

/-- Witness for C3: a `CPU` and a `GPU` target launched twice. -/
theorem launch_overwrites_in_witness :
    countKey ((CPU.launchSeq (CPU.init 4 "lmp_mpi" []) ["a.in"] []).call "b.in" []).1.args
      "-in" = 1 ∧
    dictLookup ((CPU.launchSeq (CPU.init 4 "lmp_mpi" []) ["a.in"] []).call "b.in" []).1.args
      "-in" = some "b.in" ∧
    ((CPU.launchSeq (CPU.init 4 "lmp_mpi" []) ["a.in"] []).call "b.in" []).2 =
      run_lammps 4 "lmp_mpi"
        ((CPU.launchSeq (CPU.init 4 "lmp_mpi" []) ["a.in"] []).call "b.in" []).1.args [] ∧
    countKey ((GPU.launchSeq (GPU.init 1 "lmp" []) ["a.in"] []).call "b.in" []).1.args
      "-in" = 1 ∧
    dictLookup ((GPU.launchSeq (GPU.init 1 "lmp" []) ["a.in"] []).call "b.in" []).1.args
      "-in" = some "b.in" ∧
    ((GPU.launchSeq (GPU.init 1 "lmp" []) ["a.in"] []).call "b.in" []).2 =
      run_lammps 1 "lmp"
        ((GPU.launchSeq (GPU.init 1 "lmp" []) ["a.in"] []).call "b.in" []).1.args [] :=
  launch_overwrites_in (CPU.init 4 "lmp_mpi" []) (GPU.init 1 "lmp" []) ["a.in"] "b.in" []
    (by decide) (by decide)

theorem dictHasKey_false_iff (c : Dict) (k : String) :
    dictHasKey c k = false ↔ k ∉ keysOf c := by
  induction c with
  | nil => simp [dictHasKey, keysOf]
  | cons p c ih =>
      simp only [dictHasKey, keysOf, List.map_cons, List.mem_cons,
        Bool.or_eq_false_iff, beq_eq_false_iff_ne, ne_eq, ih]
      constructor
      · rintro ⟨h1, h2⟩ (h | h)
        · exact h1 h.symm
        · exact h2 h
      · intro h
        exact ⟨fun hh => h (Or.inl hh.symm), fun hh => h (Or.inr hh)⟩

/-- A key not assigned by `c` keeps its binding from `d` across `\x7b**d, **c\x7d`. -/
theorem dictMerge_lookup_not_mem (c d : Dict) (k : String)
    (h : dictHasKey c k = false) :
    dictLookup (dictMerge d c) k = dictLookup d k := by
  induction c generalizing d with
  | nil => rfl
  | cons p c ih =>
      simp only [dictHasKey, Bool.or_eq_false_iff, beq_eq_false_iff_ne, ne_eq] at h
      have step : dictMerge d (p :: c) = dictMerge (dictSet d p.1 p.2) c := rfl
      rw [step, ih (dictSet d p.1 p.2) (by simpa [dictHasKey] using h.2),
        dictLookup_dictSet_ne d p.1 p.2 k (fun hh => h.1 hh.symm)]

/-- A key assigned by `c` gets the value from `c` across `\x7b**d, **c\x7d` (for a dict
`c`, whose keys are distinct). -/
theorem dictMerge_lookup_mem (c d : Dict) (k v : String)
    (hc : (keysOf c).Nodup) (h : dictLookup c k = some v) :
    dictLookup (dictMerge d c) k = some v := by
  induction c generalizing d with
  | nil => cases h
  | cons p c ih =>
      simp only [keysOf, List.map_cons, List.nodup_cons, List.mem_map] at hc
      rcases hc with ⟨hp, hc⟩
      have step : dictMerge d (p :: c) = dictMerge (dictSet d p.1 p.2) c := rfl
      by_cases hk : p.1 = k
      · have hv : v = p.2 := by
          simp [dictLookup, hk] at h
          exact h.symm
        have hkc : dictHasKey c k = false := by
          rw [dictHasKey_false_iff]
          intro hmem
          rcases List.mem_map.mp hmem with ⟨q, hq, hq1⟩
          exact hp ⟨q, hq, by rw [hq1, hk]⟩
        rw [step, dictMerge_lookup_not_mem c (dictSet d p.1 p.2) k hkc, hk,
          dictLookup_dictSet_self, hv]
      · have h' : dictLookup c k = some v := by
          simpa [dictLookup, hk] using h
        rw [step]
        exact ih (dictSet d p.1 p.2) hc h'

/-- GPU cluster default sbatch settings from `SlurmGPU.__init__`. -/
def slurmGpuDefaultSettings (gpu_per_node : Nat) : Dict :=
  [("job-name", "GPU-job"),
   ("partition", "normal"),
   ("ntasks", toString gpu_per_node),
   ("cpus-per-task", "2"),
   ("gres", "gpu:" ++ toString gpu_per_node),
   ("output", "slurm.out")]

/-- GPU cluster default command line arguments from `SlurmGPU.__init__`. -/
def slurmGpuDefaultArgs (gpu_per_node : Nat) : Dict :=
  [("-pk", "kokkos newton on neigh half"),
   ("-k", "on g " ++ toString gpu_per_node),
   ("-sf", "kk")]

/-- CPU cluster default sbatch settings from `SlurmCPU.__init__` (with
`ntasks` bound to `str(self.num_procs)` and `nodes` to `str(self.num_nodes)`). -/
def slurmCpuDefaultSettings (num_procs num_nodes : Nat) : Dict :=
  [("job-name", "CPU-job"),
   ("account", "nn9272k"),
   ("time", "05:00:00"),
   ("partition", "normal"),
   ("ntasks", toString num_procs),
   ("nodes", toString num_nodes),
   ("output", "slurm.out")]

/-- The `SlurmCPU` target. -/
structure SlurmCPU where
  num_nodes : Nat
  num_procs : Nat
  lmp_exec : String
  lmp_module : String
  generate_jobscript : Bool
  jobscript : String
  settings : Dict
  args : Dict

/-- Model of `SlurmCPU.__init__(num_nodes, lmp_exec="lmp_mpi", settings=..., args=...,
procs_per_node=16, lmp_module="LAMMPS/13Mar18-foss-2018a",
generate_jobscript=True, jobscript="jobscript")`: `self.num_procs =
num_nodes * procs_per_node`, and the `settings` given by the caller are merged over the
defaults. -/
def SlurmCPU.init (num_nodes : Nat) (lmp_exec : String) (settings args : Dict)
    (procs_per_node : Nat) (lmp_module : String) (generate_jobscript : Bool)
    (jobscript : String) : SlurmCPU :=
  ⟨num_nodes, num_nodes * procs_per_node, lmp_exec, lmp_module,
   generate_jobscript, jobscript,
   dictMerge (slurmCpuDefaultSettings (num_nodes * procs_per_node) num_nodes)
     settings,
   args⟩

/-- The text contributed to a jobscript by one sbatch setting: the f-string
`f"#SBATCH --{key}={setting}\n#\n"`. -/
def sbatchSeg (p : String × String) : String :=
  "#SBATCH --" ++ p.1 ++ "=" ++ p.2 ++ "\n#\n"

/-- Model of `SlurmCPU.gen_jobscript(args, var)`: the contents written to the
jobscript file, one `f.write` at a time. -/
def SlurmCPU.gen_jobscript (c : SlurmCPU) (args var : Dict) : String :=
  c.settings.foldl (fun acc p => acc ++ sbatchSeg p) "#!/bin/bash\n\n"
    ++ "## Set up job environment:\n"
    ++ "source /cluster/bin/jobsetup\n"
    ++ "module purge\n"
    ++ "set -o errexit\n\n"
    ++ "module load " ++ c.lmp_module ++ "\n\n"
    ++ run_lammps c.num_procs c.lmp_exec args var

/-- Model of `SlurmCPU.__call__(lmp_script, var)`: set `self.args["-in"]`, generate the
jobscript when enabled, then run `sbatch {self.jobscript}`.  Returns the
mutated object, the file contents written (if any), and the submission
command. -/
def SlurmCPU.call (c : SlurmCPU) (lmp_script : String) (var : Dict) :
    SlurmCPU × Option String × String :=
  let args := dictSet c.args "-in" lmp_script
  let c' : SlurmCPU := ⟨c.num_nodes, c.num_procs, c.lmp_exec, c.lmp_module,
    c.generate_jobscript, c.jobscript, c.settings, args⟩
  (c', if c.generate_jobscript then some (c'.gen_jobscript args var) else none,
   "sbatch " ++ c.jobscript)

/-- The `SlurmGPU` target. -/
structure SlurmGPU where
  gpu_per_node : Nat
  lmp_exec : String
  generate_jobscript : Bool
  jobscript : String
  args : Dict
  settings : Dict

/-- Model of `SlurmGPU.__init__(gpu_per_node=1, lmp_exec="lmp", settings=..., args=...,
generate_jobscript=True, jobscript="jobscript")`: caller `args` merged over
GPU default args, caller `settings` merged over GPU default settings. -/
def SlurmGPU.init (gpu_per_node : Nat) (lmp_exec : String) (settings args : Dict)
    (generate_jobscript : Bool) (jobscript : String) : SlurmGPU :=
  ⟨gpu_per_node, lmp_exec, generate_jobscript, jobscript,
   dictMerge (slurmGpuDefaultArgs gpu_per_node) args,
   dictMerge (slurmGpuDefaultSettings gpu_per_node) settings⟩

/-- Model of `SlurmGPU.gen_jobscript(args, var)`: the contents written to the
jobscript file: shebang, sbatch lines, the CUDA-device echo, and the MPI
command built with `self.gpu_per_node` processes. -/
def SlurmGPU.gen_jobscript (c : SlurmGPU) (args var : Dict) : String :=
  c.settings.foldl (fun acc p => acc ++ sbatchSeg p) "#!/bin/bash\n\n"
    ++ "echo $CUDA_VISIBLE_DEVICES\n"
    ++ run_lammps c.gpu_per_node c.lmp_exec args var

/-- Model of `SlurmGPU.__call__(lmp_script, var)`. -/
def SlurmGPU.call (c : SlurmGPU) (lmp_script : String) (var : Dict) :
    SlurmGPU × Option String × String :=
  let args := dictSet c.args "-in" lmp_script
  let c' : SlurmGPU := ⟨c.gpu_per_node, c.lmp_exec, c.generate_jobscript,
    c.jobscript, args, c.settings⟩
  (c', if c.generate_jobscript then some (c'.gen_jobscript args var) else none,
   "sbatch " ++ c.jobscript)

/-- Claim C4: in every constructor that merges caller maps over built-in
defaults (`GPU.args`, `SlurmGPU.args`, `SlurmCPU.settings`,
`SlurmGPU.settings`), a key the caller binds gets the value given by the caller and a
key the caller does not bind keeps its default binding; the merge is the one
performed once by `__init__` on the stored map. -/
theorem init_merge_defaults (a st : Dict) (ha : (keysOf a).Nodup)
    (hst : (keysOf st).Nodup) (n nn ppn : Nat) (e m js : String) (gen : Bool)
    (k v : String) :
    (dictLookup a k = some v → dictLookup (GPU.init n e a).args k = some v) ∧
    (dictHasKey a k = false →
      dictLookup (GPU.init n e a).args k = dictLookup (gpuDefaultArgs n) k) ∧
    (dictLookup a k = some v →
      dictLookup (SlurmGPU.init n e st a gen js).args k = some v) ∧
    (dictHasKey a k = false →
      dictLookup (SlurmGPU.init n e st a gen js).args k =
        dictLookup (slurmGpuDefaultArgs n) k) ∧
    (dictLookup st k = some v →
      dictLookup (SlurmCPU.init nn e st a ppn m gen js).settings k = some v) ∧
    (dictHasKey st k = false →
      dictLookup (SlurmCPU.init nn e st a ppn m gen js).settings k =
        dictLookup (slurmCpuDefaultSettings (nn * ppn) nn) k) ∧
    (dictLookup st k = some v →
      dictLookup (SlurmGPU.init n e st a gen js).settings k = some v) ∧
    (dictHasKey st k = false →
      dictLookup (SlurmGPU.init n e st a gen js).settings k =
        dictLookup (slurmGpuDefaultSettings n) k) :=
  ⟨fun h => dictMerge_lookup_mem a _ k v ha h,
   fun h => dictMerge_lookup_not_mem a _ k h,
   fun h => dictMerge_lookup_mem a _ k v ha h,
   fun h => dictMerge_lookup_not_mem a _ k h,
   fun h => dictMerge_lookup_mem st _ k v hst h,
   fun h => dictMerge_lookup_not_mem st _ k h,
   fun h => dictMerge_lookup_mem st _ k v hst h,
   fun h => dictMerge_lookup_not_mem st _ k h⟩

/-- Witness for C4: a caller override of `-sf` takes effect, an untouched
default `-pk` survives, an overridden `time` setting takes effect, and an
untouched default `ntasks` survives. -/
theorem init_merge_defaults_witness :
    dictLookup (GPU.init 1 "lmp" [("-sf", "x")]).args "-sf" = some "x" ∧
    dictLookup (GPU.init 1 "lmp" [("-sf", "x")]).args "-pk" =
      dictLookup (gpuDefaultArgs 1) "-pk" ∧
    dictLookup (SlurmCPU.init 2 "lmp_mpi" [("time", "01:00:00")] [] 16
      "LAMMPS/13Mar18-foss-2018a" true "jobscript").settings "time" =
        some "01:00:00" ∧
    dictLookup (SlurmCPU.init 2 "lmp_mpi" [("time", "01:00:00")] [] 16
      "LAMMPS/13Mar18-foss-2018a" true "jobscript").settings "ntasks" =
        dictLookup (slurmCpuDefaultSettings (2 * 16) 2) "ntasks" :=
  ⟨(init_merge_defaults [("-sf", "x")] [("time", "01:00:00")] (by decide)
      (by decide) 1 2 16 "lmp" "LAMMPS/13Mar18-foss-2018a" "jobscript" true
      "-sf" "x").1 (by decide),
   (init_merge_defaults [("-sf", "x")] [("time", "01:00:00")] (by decide)
      (by decide) 1 2 16 "lmp" "LAMMPS/13Mar18-foss-2018a" "jobscript" true
      "-pk" "x").2.1 (by decide),
   (init_merge_defaults [] [("time", "01:00:00")] (by decide)
      (by decide) 1 2 16 "lmp_mpi" "LAMMPS/13Mar18-foss-2018a" "jobscript" true
      "time" "01:00:00").2.2.2.2.1 (by decide),
   (init_merge_defaults [] [("time", "01:00:00")] (by decide)
      (by decide) 1 2 16 "lmp_mpi" "LAMMPS/13Mar18-foss-2018a" "jobscript" true
      "ntasks" "x").2.2.2.2.2.1 (by decide)⟩

/-- The list of lines of a string, splitting on the newline character. -/
def linesOf (s : String) : List String :=
  (s.data.splitOn (Char.ofNat 10)).map fun l => String.mk l

/-- Claim C5: a `GPU` target built with `gpu_per_node = 2` and no caller
options holds, after a launch with script `s`, an option map binding `-pk`,
`-k` to `on g 2`, `-sf` to `kk` and `-in` to `s`, and the command handed to
the shell is `mpirun -n 2 ...`: the accelerator count is what `__call__`
passes to `run_lammps` as the process count. -/
theorem gpu_scenario (s : String) (var : Dict) :
    dictHasKey ((GPU.init 2 "lmp_kokkos_cuda_mpi" []).call s var).1.args "-pk" = true ∧
    dictLookup ((GPU.init 2 "lmp_kokkos_cuda_mpi" []).call s var).1.args "-k" =
      some "on g 2" ∧
    dictLookup ((GPU.init 2 "lmp_kokkos_cuda_mpi" []).call s var).1.args "-sf" =
      some "kk" ∧
    dictLookup ((GPU.init 2 "lmp_kokkos_cuda_mpi" []).call s var).1.args "-in" =
      some s ∧
    ((GPU.init 2 "lmp_kokkos_cuda_mpi" []).call s var).2 =
      "mpirun -n 2 lmp_kokkos_cuda_mpi -pk kokkos newton on comm no -k on g 2 -sf kk -in "
        ++ s ++ " " ++ segsOf varSeg var ∧
    ((GPU.init 2 "lmp_kokkos_cuda_mpi" []).call s var).2 =
      run_lammps (GPU.init 2 "lmp_kokkos_cuda_mpi" []).gpu_per_node
        (GPU.init 2 "lmp_kokkos_cuda_mpi" []).lmp_exec
        ((GPU.init 2 "lmp_kokkos_cuda_mpi" []).call s var).1.args var := by
  refine ⟨rfl, rfl, rfl, rfl, ?_, rfl⟩
  have h2 : (toString (2 : Nat)) = "2" := rfl
  have hargs : ((GPU.init 2 "lmp_kokkos_cuda_mpi" []).call s var).2 =
      run_lammps 2 "lmp_kokkos_cuda_mpi" (gpuDefaultArgs 2 ++ [("-in", s)]) var := rfl
  rw [hargs, run_lammps_eq]
  simp [segsOf, optSeg, gpuDefaultArgs, h2, ← String.append_assoc]

/-- Decomposition of the CPU-cluster jobscript contents: shebang, one sbatch
segment per setting, the environment-setup writes, the module-load write,
then the MPI command line. -/
theorem slurmcpu_gen_eq (c : SlurmCPU) (args var : Dict) :
    c.gen_jobscript args var =
      "#!/bin/bash\n\n" ++ segsOf sbatchSeg c.settings
        ++ "## Set up job environment:\n"
        ++ "source /cluster/bin/jobsetup\n"
        ++ "module purge\n"
        ++ "set -o errexit\n\n"
        ++ "module load " ++ c.lmp_module ++ "\n\n"
        ++ run_lammps c.num_procs c.lmp_exec args var := by
  unfold SlurmCPU.gen_jobscript
  rw [foldl_append_eq_segsOf]

/-- Decomposition of the GPU-cluster jobscript contents: shebang, one sbatch
segment per setting, the CUDA-device echo, then the MPI command line. -/
theorem slurmgpu_gen_eq (c : SlurmGPU) (args var : Dict) :
    c.gen_jobscript args var =
      "#!/bin/bash\n\n" ++ segsOf sbatchSeg c.settings
        ++ "echo $CUDA_VISIBLE_DEVICES\n"
        ++ run_lammps c.gpu_per_node c.lmp_exec args var := by
  unfold SlurmGPU.gen_jobscript
  rw [foldl_append_eq_segsOf]

/-- Claim C6: a `SlurmCPU` target with `num_nodes = 2`, `procs_per_node = 16`
and no caller settings stores `ntasks = 32` and `nodes = 2`, its process
count is `2 * 16`, and the generated jobscript is a fixed header followed by
the `run_lammps` command for `32` processes, which is the last line
of the script. -/
theorem slurmcpu_scenario (args var : Dict) :
    dictLookup (SlurmCPU.init 2 "lmp_mpi" [] [] 16 "LAMMPS/13Mar18-foss-2018a"
      true "jobscript").settings "ntasks" = some "32" ∧
    dictLookup (SlurmCPU.init 2 "lmp_mpi" [] [] 16 "LAMMPS/13Mar18-foss-2018a"
      true "jobscript").settings "nodes" = some "2" ∧
    (SlurmCPU.init 2 "lmp_mpi" [] [] 16 "LAMMPS/13Mar18-foss-2018a"
      true "jobscript").num_procs = 2 * 16 ∧
    (SlurmCPU.init 2 "lmp_mpi" [] [] 16 "LAMMPS/13Mar18-foss-2018a"
      true "jobscript").gen_jobscript args var =
      "#!/bin/bash\n\n#SBATCH --job-name=CPU-job\n#\n#SBATCH --account=nn9272k\n#\n#SBATCH --time=05:00:00\n#\n#SBATCH --partition=normal\n#\n#SBATCH --ntasks=32\n#\n#SBATCH --nodes=2\n#\n#SBATCH --output=slurm.out\n#\n## Set up job environment:\nsource /cluster/bin/jobsetup\nmodule purge\nset -o errexit\n\nmodule load LAMMPS/13Mar18-foss-2018a\n\n"
        ++ run_lammps (2 * 16) "lmp_mpi" args var ∧
    (linesOf ((SlurmCPU.init 2 "lmp_mpi" [] [] 16 "LAMMPS/13Mar18-foss-2018a"
      true "jobscript").gen_jobscript [("-in", "in.melt")] [("T", "300")])).getLast?
      = some (run_lammps (2 * 16) "lmp_mpi" [("-in", "in.melt")] [("T", "300")]) := by
  refine ⟨rfl, rfl, rfl, rfl, ?_⟩
  decide

/-- Claim C7: for every `SlurmGPU` target and option/variable maps, the
generated jobscript is shebang, sbatch lines, the `echo $CUDA_VISIBLE_DEVICES`
line, and then the MPI command line (so the echo precedes the command); and
the script of a default-constructed target contains no `module` text at all
(no module-load, no module-purge) and no strict-error-exit line, unlike the
CPU-cluster script. -/
theorem slurmgpu_script (n : Nat) (e : String) (st a : Dict) (gen : Bool)
    (js : String) (args var : Dict) :
    (SlurmGPU.init n e st a gen js).gen_jobscript args var =
      "#!/bin/bash\n\n" ++ segsOf sbatchSeg (SlurmGPU.init n e st a gen js).settings
        ++ "echo $CUDA_VISIBLE_DEVICES\n"
        ++ run_lammps n e args var ∧
    ¬ ("module".data <:+:
        ((SlurmGPU.init 1 "lmp" [] [] true "jobscript").gen_jobscript
          [("-in", "script.in")] [("T", "300")]).data) ∧
    ¬ ("set -o errexit".data <:+:
        ((SlurmGPU.init 1 "lmp" [] [] true "jobscript").gen_jobscript
          [("-in", "script.in")] [("T", "300")]).data) := by
  refine ⟨slurmgpu_gen_eq (SlurmGPU.init n e st a gen js) args var, ?_, ?_⟩
  · decide
  · decide

/-- The CPU-cluster job-script layout asserted by the claim, rendered from the
spec's words: shebang, then exactly one `#SBATCH --key=value` line per
setting, then the environment-setup lines, then the module-load line, then
the command, with nothing else in between. -/
def claimedJobscriptCPU (settings : Dict) (lmp_module cmd : String) : String :=
  "#!/bin/bash\n"
    ++ segsOf (fun p => "#SBATCH --" ++ p.1 ++ "=" ++ p.2 ++ "\n") settings
    ++ "source /cluster/bin/jobsetup\nmodule purge\nset -o errexit\n"
    ++ "module load " ++ lmp_module ++ "\n" ++ cmd

/-- Counterexample to C8 as stated: on a concrete `SlurmCPU` target the
generated script is not the claimed layout; its line 1 is a blank line and
its line 3 is a bare `#` comment line, neither of which the claimed layout
contains between the shebang, the `#SBATCH` lines and the rest. -/
theorem slurmcpu_jobscript_not_claimed :
    (SlurmCPU.init 2 "lmp_mpi" [] [] 16 "LAMMPS/13Mar18-foss-2018a" true
        "jobscript").gen_jobscript [("-in", "in.melt")] [("T", "300")] ≠
      claimedJobscriptCPU
        (SlurmCPU.init 2 "lmp_mpi" [] [] 16 "LAMMPS/13Mar18-foss-2018a" true
          "jobscript").settings
        "LAMMPS/13Mar18-foss-2018a"
        (run_lammps (2 * 16) "lmp_mpi" [("-in", "in.melt")] [("T", "300")]) ∧
    (linesOf ((SlurmCPU.init 2 "lmp_mpi" [] [] 16 "LAMMPS/13Mar18-foss-2018a"
      true "jobscript").gen_jobscript [("-in", "in.melt")] [("T", "300")])).get? 1
      = some "" ∧
    (linesOf ((SlurmCPU.init 2 "lmp_mpi" [] [] 16 "LAMMPS/13Mar18-foss-2018a"
      true "jobscript").gen_jobscript [("-in", "in.melt")] [("T", "300")])).get? 3
      = some "#" := by
  refine ⟨?_, by decide, by decide⟩
  decide

/-- Claim C8 (amended): the CPU-cluster jobscript is, in order, the shebang
line followed by a blank line, one `#SBATCH --key=value` line per setting
each followed by a `#` comment line, a `## Set up job environment:` comment
line, the environment-setup lines (`source /cluster/bin/jobsetup`,
`module purge`, `set -o errexit`) followed by a blank line, the module-load
line followed by a blank line, and the MPI command line for the total
process count of the cluster. -/
theorem slurmcpu_jobscript_structure (nn : Nat) (e : String) (st a : Dict)
    (ppn : Nat) (m js : String) (gen : Bool) (args var : Dict) :
    (SlurmCPU.init nn e st a ppn m gen js).gen_jobscript args var =
      "#!/bin/bash\n\n"
        ++ segsOf sbatchSeg (SlurmCPU.init nn e st a ppn m gen js).settings
        ++ "## Set up job environment:\n"
        ++ "source /cluster/bin/jobsetup\n"
        ++ "module purge\n"
        ++ "set -o errexit\n\n"
        ++ "module load " ++ m ++ "\n\n"
        ++ run_lammps (nn * ppn) e args var :=
  slurmcpu_gen_eq (SlurmCPU.init nn e st a ppn m gen js) args var

/-- A tiny heap of dict objects, to model Python object identity for the
mutable default argument `args` of `CPU.__init__`. -/
structure Store where
  dicts : List Dict

/-- Dereference an address in the heap. -/
def storeGet (st : Store) (a : Nat) : Dict := st.dicts.getD a []

/-- Overwrite the dict at an address. -/
def storeSet (st : Store) (a : Nat) (d : Dict) : Store := ⟨st.dicts.set a d⟩

/-- The address of the one default dict object allocated when Python
evaluates the line `def __init__(self, num_procs=4, lmp_exec="lmp_mpi",
args=...)` of class `CPU`. -/
def cpuDefaultArgsAddr : Nat := 0

/-- The module-level heap after `class CPU` is defined: only the shared
(initially empty) default `args` dict exists. -/
def moduleStore : Store := ⟨[[]]⟩

/-- A constructed `CPU` instance holding a reference to its `args` dict. -/
structure CPURef where
  num_procs : Nat
  lmp_exec : String
  argsAddr : Nat

/-- Construction `CPU()` with the `args` parameter left defaulted: `self.args = args`
binds the shared default dict object; nothing is allocated or copied. -/
def CPURef.initDefault (num_procs : Nat) (lmp_exec : String) : CPURef :=
  ⟨num_procs, lmp_exec, cpuDefaultArgsAddr⟩

/-- Model of `CPU.__call__` acting through the reference: mutates the dict object that
the field `args` of the instance points to. -/
def CPURef.call (st : Store) (c : CPURef) (lmp_script : String) (var : Dict) :
    Store × String :=
  let args := dictSet (storeGet st c.argsAddr) "-in" lmp_script
  (storeSet st c.argsAddr args, run_lammps c.num_procs c.lmp_exec args var)

/-- Claim C9 is violated by the code: two `CPU` instances constructed with
the default `args` share one dict object, so a launch on the first instance
(writing `-in`) changes the option map stored in the second instance from
`[]` to `[("-in", "a.in")]`. -/
theorem cpu_default_args_shared :
    storeGet moduleStore (CPURef.initDefault 2 "other_lmp").argsAddr = [] ∧
    storeGet
      (CPURef.call moduleStore (CPURef.initDefault 4 "lmp_mpi") "a.in" []).1
      (CPURef.initDefault 2 "other_lmp").argsAddr = [("-in", "a.in")] := by
  exact ⟨rfl, rfl⟩

/-- The message raised by the abstract `Computer.__init__`:
`NotImplementedError("Class Computer has no instance \x27__init__\x27.")`.
Constructing the abstract class always fails with it. -/
def Computer.init (lmp_exec : String) (args : Dict) : Except String Unit :=
  Except.error ("Class Computer has no instance \x27__init__\x27.")

/-- The abstract `Computer.__call__` always raises
`NotImplementedError("Class Computer has no instance \x27__call__\x27.")`. -/
def Computer.call (lmp_script : String) (var : Dict) : Except String Unit :=
  Except.error ("Class Computer has no instance \x27__call__\x27.")

/-- Claim C10: invoking either required operation of the abstract base class
fails fast with the unimplemented-operation error, for every argument. -/
theorem computer_abstract_raises (e s : String) (a v : Dict) :
    Computer.init e a =
      Except.error ("Class Computer has no instance \x27__init__\x27.") ∧
    Computer.call s v =
      Except.error ("Class Computer has no instance \x27__call__\x27.") :=
  ⟨rfl, rfl⟩

end VashishtaSim
